import Mathlib

/-!
# Verification of the xtop eBPF collection core

A shallow embedding of the event-pairing and accumulation engine found in
`src/collector/ebpf/bpf/*.c`.  Each BPF hash map is modelled as an
association list together with a fixed capacity (`max_entries`); each
tracepoint/kprobe handler is modelled as a pure function from the extracted
event payload and the current map state to the next map state.  Machine
integers are modelled as `Nat` with explicit reduction modulo `2^32` or
`2^64` exactly where the C code can overflow.
-/

namespace Xtop

/-- 64-bit truncation, as storing into a `__u64` field. -/
def u64 (n : Nat) : Nat := n % 2 ^ 64

/-- 32-bit truncation, as storing into a `__u32` field. -/
def u32 (n : Nat) : Nat := n % 2 ^ 32

/-- Unsigned 64-bit subtraction `a - b` with C wraparound semantics. -/
def u64sub (a b : Nat) : Nat := (2 ^ 64 + a % 2 ^ 64 - b % 2 ^ 64) % 2 ^ 64

/-- `delta > 0xFFFFFFFF ? 0xFFFFFFFF : (__u32)delta` — the clamp used when a
64-bit duration is stored into a 32-bit `max` field. -/
def clamp32 (d : Nat) : Nat := if d > 0xFFFFFFFF then 0xFFFFFFFF else d

/-- Lookup of the first binding of key `k` in an association list, as
`bpf_map_lookup_elem`. -/
def alookup {K V : Type} [DecidableEq K] : List (K × V) → K → Option V
  | [], _ => none
  | (k', v) :: rest, k => if k' = k then some v else alookup rest k

/-- Replace the value bound to key `k` (first binding), as an in-place write
through the pointer returned by `bpf_map_lookup_elem`. -/
def areplace {K V : Type} [DecidableEq K] : List (K × V) → K → V → List (K × V)
  | [], _, _ => []
  | (k', v') :: rest, k, v =>
      if k' = k then (k', v) :: rest else (k', v') :: areplace rest k v

/-- Remove every binding of key `k`, as `bpf_map_delete_elem`. -/
def adelete {K V : Type} [DecidableEq K] : List (K × V) → K → List (K × V)
  | [], _ => []
  | (k', v') :: rest, k =>
      if k' = k then adelete rest k else (k', v') :: adelete rest k

/-- A BPF hash map: its current entries and its fixed `max_entries` capacity. -/
structure BpfMap (K V : Type) where
  entries : List (K × V)
  cap : Nat
deriving DecidableEq

/-- `bpf_map_lookup_elem`. -/
def BpfMap.lookup {K V : Type} [DecidableEq K] (m : BpfMap K V) (k : K) : Option V :=
  alookup m.entries k

/-- `bpf_map_update_elem(..., BPF_ANY)`: overwrite when present; insert when
absent and the map is below capacity; silently fail when absent and full. -/
def BpfMap.updateAny {K V : Type} [DecidableEq K] (m : BpfMap K V) (k : K) (v : V) :
    BpfMap K V :=
  match alookup m.entries k with
  | some _ => ⟨areplace m.entries k v, m.cap⟩
  | none =>
      if m.entries.length < m.cap then ⟨(k, v) :: m.entries, m.cap⟩ else m

/-- `bpf_map_update_elem(..., BPF_NOEXIST)`: fail when present (`EEXIST`);
insert when absent and below capacity; silently fail when absent and full. -/
def BpfMap.updateNoexist {K V : Type} [DecidableEq K] (m : BpfMap K V) (k : K) (v : V) :
    BpfMap K V :=
  match alookup m.entries k with
  | some _ => m
  | none =>
      if m.entries.length < m.cap then ⟨(k, v) :: m.entries, m.cap⟩ else m

/-- An in-place merge into the record a successful lookup returned: writing
through the pointer succeeds regardless of capacity. -/
def BpfMap.writeThrough {K V : Type} [DecidableEq K] (m : BpfMap K V) (k : K) (v : V) :
    BpfMap K V :=
  ⟨areplace m.entries k v, m.cap⟩

/-- `bpf_map_delete_elem`. -/
def BpfMap.del {K V : Type} [DecidableEq K] (m : BpfMap K V) (k : K) : BpfMap K V :=
  ⟨adelete m.entries k, m.cap⟩

/-- The empty map of a given capacity. -/
def BpfMap.empty (K V : Type) (cap : Nat) : BpfMap K V := ⟨[], cap⟩

/-! ## runqlat.c — run queue latency per PID -/

/-- `struct rqlat_val` of runqlat.c: `__u64 total_ns; __u32 count; __u32 max_ns`. -/
structure RqlatVal where
  total_ns : Nat
  count : Nat
  max_ns : Nat
deriving DecidableEq

/-- State of runqlat.c: pairing map `rq_start` (pid → ts) and accumulation map
`rqlat_accum` (pid → rqlat_val), both with `max_entries` 10240. -/
structure RunqlatState where
  rq_start : BpfMap Nat Nat
  rqlat_accum : BpfMap Nat RqlatVal
deriving DecidableEq

/-- Initial runqlat state: both maps empty at capacity 10240. -/
def runqlatInit : RunqlatState :=
  ⟨BpfMap.empty Nat Nat 10240, BpfMap.empty Nat RqlatVal 10240⟩

/-- `handle_sched_wakeup` of runqlat.c: record wakeup timestamp for a nonzero
pid with `BPF_ANY`. -/
def handle_sched_wakeup (pid ts : Nat) (s : RunqlatState) : RunqlatState :=
  if pid = 0 then s
  else { s with rq_start := s.rq_start.updateAny pid ts }

/-- `handle_sched_switch_rqlat` of runqlat.c: pair the switch-in with the
recorded wakeup, discard deltas above the 10 s staleness ceiling, then merge
into `rqlat_accum` (create with `BPF_NOEXIST` when absent). -/
def handle_sched_switch_rqlat (pid now : Nat) (s : RunqlatState) : RunqlatState :=
  if pid = 0 then s
  else
    match s.rq_start.lookup pid with
    | none => s
    | some ts =>
        let delta := u64sub now ts
        let s1 := { s with rq_start := s.rq_start.del pid }
        if delta > 10000000000 then s1
        else
          match s1.rqlat_accum.lookup pid with
          | some v =>
              let v' : RqlatVal :=
                { total_ns := u64 (v.total_ns + delta)
                  count := u32 (v.count + 1)
                  max_ns := if clamp32 delta > v.max_ns then clamp32 delta else v.max_ns }
              { s1 with rqlat_accum := s1.rqlat_accum.writeThrough pid v' }
          | none =>
              let nv : RqlatVal :=
                { total_ns := delta, count := 1, max_ns := clamp32 delta }
              { s1 with rqlat_accum := s1.rqlat_accum.updateNoexist pid nv }

/-! ## lockwait.c — futex wait contention per PID -/

/-- `struct lock_val` of lockwait.c: `__u64 total_wait_ns; __u32 count`. -/
structure LockVal where
  total_wait_ns : Nat
  count : Nat
deriving DecidableEq

/-- State of lockwait.c: `futex_start` (pid → ts) and `futex_accum`
(pid → lock_val), both with `max_entries` 10240. -/
structure LockwaitState where
  futex_start : BpfMap Nat Nat
  futex_accum : BpfMap Nat LockVal
deriving DecidableEq

/-- Initial lockwait state: both maps empty at capacity 10240. -/
def lockwaitInit : LockwaitState :=
  ⟨BpfMap.empty Nat Nat 10240, BpfMap.empty Nat LockVal 10240⟩

/-- `handle_futex_enter` of lockwait.c: for a wait-class futex op and a
nonzero pid, record the entry timestamp with `BPF_ANY`. -/
def handle_futex_enter (op pid ts : Nat) (s : LockwaitState) : LockwaitState :=
  let opm := op % 128
  if opm ≠ 0 ∧ opm ≠ 9 ∧ opm ≠ 6 then s
  else if pid = 0 then s
  else { s with futex_start := s.futex_start.updateAny pid ts }

/-- `handle_futex_exit` of lockwait.c: pair with the recorded entry, discard
zero deltas and deltas above the 30 s staleness ceiling, then merge into
`futex_accum`. -/
def handle_futex_exit (pid now : Nat) (s : LockwaitState) : LockwaitState :=
  if pid = 0 then s
  else
    match s.futex_start.lookup pid with
    | none => s
    | some ts =>
        let delta := u64sub now ts
        let s1 := { s with futex_start := s.futex_start.del pid }
        if delta = 0 ∨ delta > 30000000000 then s1
        else
          match s1.futex_accum.lookup pid with
          | some v =>
              let v' : LockVal :=
                { total_wait_ns := u64 (v.total_wait_ns + delta)
                  count := u32 (v.count + 1) }
              { s1 with futex_accum := s1.futex_accum.writeThrough pid v' }
          | none =>
              let nv : LockVal := { total_wait_ns := delta, count := 1 }
              { s1 with futex_accum := s1.futex_accum.updateNoexist pid nv }

/-! ## tcpconnlat.c — TCP connection establishment latency -/

/-- `struct conn_start` of tcpconnlat.c: `__u64 ts; __u32 pid`. -/
structure ConnStart where
  ts : Nat
  pid : Nat
deriving DecidableEq

/-- `struct connlat_val` of tcpconnlat.c. -/
structure ConnlatVal where
  total_ns : Nat
  count : Nat
  max_ns : Nat
  last_pid : Nat
  daddr : Nat
deriving DecidableEq

/-- State of tcpconnlat.c: `conn_inflight` (sock pointer → conn_start) and
`connlat_accum` (pid → connlat_val), both with `max_entries` 10240. -/
structure TcpconnlatState where
  conn_inflight : BpfMap Nat ConnStart
  connlat_accum : BpfMap Nat ConnlatVal
deriving DecidableEq

/-- Initial tcpconnlat state: both maps empty at capacity 10240. -/
def tcpconnlatInit : TcpconnlatState :=
  ⟨BpfMap.empty Nat ConnStart 10240, BpfMap.empty Nat ConnlatVal 10240⟩

/-- `handle_tcp_v4_connect` of tcpconnlat.c: record start time and pid under
the socket-pointer key with `BPF_ANY`. -/
def handle_tcp_v4_connect (sk ts pid : Nat) (s : TcpconnlatState) : TcpconnlatState :=
  if pid = 0 then s
  else { s with conn_inflight := s.conn_inflight.updateAny sk ⟨ts, pid⟩ }

/-- `handle_set_state` of tcpconnlat.c: only on a SYN_SENT → ESTABLISHED
transition, pair with the in-flight start, delete it, and merge the delta into
`connlat_accum` keyed by pid.  Note: no staleness ceiling is applied. -/
def handle_set_state (skaddr oldstate newstate now daddr : Nat)
    (s : TcpconnlatState) : TcpconnlatState :=
  if ¬(oldstate = 2 ∧ newstate = 1) then s
  else
    match s.conn_inflight.lookup skaddr with
    | none => s
    | some st =>
        let delta := u64sub now st.ts
        let pid := st.pid
        let s1 := { s with conn_inflight := s.conn_inflight.del skaddr }
        match s1.connlat_accum.lookup pid with
        | some v =>
            let v' : ConnlatVal :=
              { total_ns := u64 (v.total_ns + delta)
                count := u32 (v.count + 1)
                max_ns := if clamp32 delta > v.max_ns then clamp32 delta else v.max_ns
                last_pid := pid
                daddr := daddr }
            { s1 with connlat_accum := s1.connlat_accum.writeThrough pid v' }
        | none =>
            let nv : ConnlatVal :=
              { total_ns := delta, count := 1, max_ns := clamp32 delta
                last_pid := pid, daddr := daddr }
            { s1 with connlat_accum := s1.connlat_accum.updateNoexist pid nv }

/-! ## pgfault.c — page fault latency per PID -/

/-- `struct pgfault_val` of pgfault.c. -/
structure PgfaultVal where
  total_ns : Nat
  count : Nat
  major_count : Nat
deriving DecidableEq

/-- State of pgfault.c: `pgfault_start` (pid → ts) and `pgfault_accum`
(pid → pgfault_val), both with `max_entries` 10240. -/
structure PgfaultState where
  pgfault_start : BpfMap Nat Nat
  pgfault_accum : BpfMap Nat PgfaultVal
deriving DecidableEq

/-- Initial pgfault state: both maps empty at capacity 10240. -/
def pgfaultInit : PgfaultState :=
  ⟨BpfMap.empty Nat Nat 10240, BpfMap.empty Nat PgfaultVal 10240⟩

/-- `handle_fault_enter` of pgfault.c. -/
def handle_fault_enter (pid ts : Nat) (s : PgfaultState) : PgfaultState :=
  if pid = 0 then s
  else { s with pgfault_start := s.pgfault_start.updateAny pid ts }

/-- `handle_fault_exit` of pgfault.c: pair with the recorded entry, discard
deltas above the 5 s staleness ceiling, count major faults separately. -/
def handle_fault_exit (pid now ret : Nat) (s : PgfaultState) : PgfaultState :=
  if pid = 0 then s
  else
    match s.pgfault_start.lookup pid with
    | none => s
    | some ts =>
        let delta := u64sub now ts
        let s1 := { s with pgfault_start := s.pgfault_start.del pid }
        if delta > 5000000000 then s1
        else
          let is_major := ret.testBit 2
          match s1.pgfault_accum.lookup pid with
          | some v =>
              let v' : PgfaultVal :=
                { total_ns := u64 (v.total_ns + delta)
                  count := u32 (v.count + 1)
                  major_count := if is_major then u32 (v.major_count + 1) else v.major_count }
              { s1 with pgfault_accum := s1.pgfault_accum.writeThrough pid v' }
          | none =>
              let nv : PgfaultVal :=
                { total_ns := delta, count := 1
                  major_count := if is_major then 1 else 0 }
              { s1 with pgfault_accum := s1.pgfault_accum.updateNoexist pid nv }

/-! ## syscalldissect.c — per-PID, per-syscall time profiling -/

/-- `struct sc_key` of syscalldissect.c: `__u32 pid; __u32 syscall_nr`. -/
structure ScKey where
  pid : Nat
  syscall_nr : Nat
deriving DecidableEq

/-- `struct sc_val` of syscalldissect.c. -/
structure ScVal where
  total_ns : Nat
  count : Nat
  max_ns : Nat
deriving DecidableEq

/-- State of syscalldissect.c: `sc_start` (pid → ts, `max_entries` 10240) and
`sc_accum` (sc_key → sc_val, `max_entries` 32768). -/
structure SyscallState where
  sc_start : BpfMap Nat Nat
  sc_accum : BpfMap ScKey ScVal
deriving DecidableEq

/-- Initial syscalldissect state. -/
def syscallInit : SyscallState :=
  ⟨BpfMap.empty Nat Nat 10240, BpfMap.empty ScKey ScVal 32768⟩

/-- `handle_sys_enter` of syscalldissect.c. -/
def handle_sys_enter (pid ts : Nat) (s : SyscallState) : SyscallState :=
  if pid = 0 then s
  else { s with sc_start := s.sc_start.updateAny pid ts }

/-- `handle_sys_exit` of syscalldissect.c: pair with the recorded entry,
discard deltas above the 30 s staleness ceiling, then merge into `sc_accum`
keyed by (pid, syscall nr). -/
def handle_sys_exit (pid id now : Nat) (s : SyscallState) : SyscallState :=
  if pid = 0 then s
  else
    match s.sc_start.lookup pid with
    | none => s
    | some ts =>
        let delta := u64sub now ts
        let s1 := { s with sc_start := s.sc_start.del pid }
        if delta > 30000000000 then s1
        else
          let key : ScKey := ⟨pid, u32 id⟩
          match s1.sc_accum.lookup key with
          | some v =>
              let v' : ScVal :=
                { total_ns := u64 (v.total_ns + delta)
                  count := u32 (v.count + 1)
                  max_ns := if clamp32 delta > v.max_ns then clamp32 delta else v.max_ns }
              { s1 with sc_accum := s1.sc_accum.writeThrough key v' }
          | none =>
              let nv : ScVal :=
                { total_ns := delta, count := 1, max_ns := clamp32 delta }
              { s1 with sc_accum := s1.sc_accum.updateNoexist key nv }

/-! ## iolatency.c — block IO latency histogram per PID -/

/-- `struct rq_key` of iolatency.c: `__u32 dev; __u64 sector`. -/
structure RqKey where
  dev : Nat
  sector : Nat
deriving DecidableEq

/-- `struct rq_start` of iolatency.c: `__u32 pid; __u64 start_ns`. -/
structure RqStart where
  pid : Nat
  start_ns : Nat
deriving DecidableEq

/-- `struct iolat_val` of iolatency.c: totals, a 64-bit max, and 16 histogram
slots. -/
structure IolatVal where
  total_ns : Nat
  max_ns : Nat
  count : Nat
  slots : List Nat
  dev : Nat
deriving DecidableEq

/-- State of iolatency.c: `inflight` (rq_key → rq_start) and `iolat_hist`
(pid → iolat_val), both with `max_entries` 10240. -/
structure IolatencyState where
  inflight : BpfMap RqKey RqStart
  iolat_hist : BpfMap Nat IolatVal
deriving DecidableEq

/-- Initial iolatency state. -/
def iolatencyInit : IolatencyState :=
  ⟨BpfMap.empty RqKey RqStart 10240, BpfMap.empty Nat IolatVal 10240⟩

/-- The unrolled loop body of `log2_slot`: `fuel` remaining iterations; halve
`v` and bump `slot` while `v > 1`. -/
def log2_slot_go : Nat → Nat → Nat → Nat
  | 0, _, slot => slot
  | fuel + 1, v, slot =>
      if v > 1 then log2_slot_go fuel (v / 2) (slot + 1)
      else log2_slot_go fuel v slot

/-- `log2_slot` of iolatency.c: 15 halving iterations starting from slot 0,
then the (unreachable) clamp to slot 15. -/
def log2_slot (us : Nat) : Nat :=
  let slot := log2_slot_go 15 us 0
  if slot ≥ 16 then 15 else slot

/-- Bump slot `i` of a histogram, as `__sync_fetch_and_add(&slots[i], 1)` on a
`__u32` slot. -/
def bumpSlot (slots : List Nat) (i : Nat) : List Nat :=
  slots.mapIdx fun j c => if j = i then u32 (c + 1) else c

/-- `handle_block_rq_issue` of iolatency.c: record issuing pid and timestamp
under the (dev, sector) key with `BPF_ANY`. -/
def handle_block_rq_issue (dev sector pid ts : Nat) (s : IolatencyState) : IolatencyState :=
  { s with inflight := s.inflight.updateAny ⟨dev, sector⟩ ⟨pid, ts⟩ }

/-- `handle_block_rq_complete` of iolatency.c: pair with the in-flight issue,
delete it, discard zero deltas and pid 0, then merge into the per-pid
histogram record.  Note: no staleness ceiling is applied. -/
def handle_block_rq_complete (dev sector now : Nat) (s : IolatencyState) : IolatencyState :=
  let key : RqKey := ⟨dev, sector⟩
  match s.inflight.lookup key with
  | none => s
  | some st =>
      let delta := u64sub now st.start_ns
      let pid := st.pid
      let s1 := { s with inflight := s.inflight.del key }
      if delta = 0 ∨ pid = 0 then s1
      else
        let us := delta / 1000
        let slot := log2_slot us
        match s1.iolat_hist.lookup pid with
        | some v =>
            let v' : IolatVal :=
              { total_ns := u64 (v.total_ns + delta)
                count := u32 (v.count + 1)
                slots := bumpSlot v.slots (slot % 16)
                max_ns := if delta > v.max_ns then delta else v.max_ns
                dev := v.dev }
            { s1 with iolat_hist := s1.iolat_hist.writeThrough pid v' }
        | none =>
            let nv : IolatVal :=
              { total_ns := delta, max_ns := delta, count := 1
                slots := bumpSlot (List.replicate 16 0) (slot % 16)
                dev := dev }
            { s1 with iolat_hist := s1.iolat_hist.updateNoexist pid nv }

/-! ## execsnoop.c — process exec counting (sentinel) -/

/-- `struct exec_val` of execsnoop.c: a `__u64` count plus descriptive
last-seen fields. -/
structure ExecVal where
  count : Nat
  ts : Nat
  ppid : Nat
  uid : Nat
  comm : List Nat
  filename : List Nat
deriving DecidableEq

/-- State of execsnoop.c: `exec_accum` (pid → exec_val), `max_entries` 10240. -/
structure ExecsnoopState where
  exec_accum : BpfMap Nat ExecVal
deriving DecidableEq

/-- Initial execsnoop state. -/
def execsnoopInit : ExecsnoopState := ⟨BpfMap.empty Nat ExecVal 10240⟩

/-- `handle_sched_process_exec` of execsnoop.c: count execs per pid and
overwrite the descriptive fields (timestamp, ppid, uid, comm, filename)
last-write-wins. -/
def handle_sched_process_exec (pid uid ppid ts : Nat) (comm filename : List Nat)
    (s : ExecsnoopState) : ExecsnoopState :=
  if pid = 0 then s
  else
    match s.exec_accum.lookup pid with
    | some v =>
        let v' : ExecVal :=
          { count := u64 (v.count + 1), ts := ts, ppid := ppid, uid := uid
            comm := comm, filename := filename }
        { s with exec_accum := s.exec_accum.writeThrough pid v' }
    | none =>
        let nv : ExecVal :=
          { count := 1, ts := ts, ppid := ppid, uid := uid
            comm := comm, filename := filename }
        { s with exec_accum := s.exec_accum.updateNoexist pid nv }

/-! ## sockstate.c — TCP state transition counting (sentinel) -/

/-- `struct state_key` of sockstate.c: `__u16 oldstate; __u16 newstate`. -/
structure StateKey where
  oldstate : Nat
  newstate : Nat
deriving DecidableEq

/-- `struct state_val` of sockstate.c: a single `__u64` count. -/
structure StateVal where
  count : Nat
deriving DecidableEq

/-- State of sockstate.c: `state_accum` (state_key → state_val),
`max_entries` 256. -/
structure SockstateState where
  state_accum : BpfMap StateKey StateVal
deriving DecidableEq

/-- Initial sockstate state. -/
def sockstateInit : SockstateState := ⟨BpfMap.empty StateKey StateVal 256⟩

/-- `handle_sock_set_state` of sockstate.c: count each (old, new) transition
pair, with both states truncated to `__u16`. -/
def handle_sock_set_state (oldstate newstate : Nat) (s : SockstateState) : SockstateState :=
  let key : StateKey := ⟨oldstate % 2 ^ 16, newstate % 2 ^ 16⟩
  match s.state_accum.lookup key with
  | some v =>
      { s with state_accum := s.state_accum.writeThrough key ⟨u64 (v.count + 1)⟩ }
  | none =>
      { s with state_accum := s.state_accum.updateNoexist key ⟨1⟩ }

/-! ## modload.c — kernel module load counting (sentinel) -/

/-- `struct mod_val` of modload.c: count, last timestamp, 56-byte name. -/
structure ModVal where
  count : Nat
  ts : Nat
  name : List Nat
deriving DecidableEq

/-- State of modload.c: `mod_accum` (u64 key → mod_val), `max_entries` 256. -/
structure ModloadState where
  mod_accum : BpfMap Nat ModVal
deriving DecidableEq

/-- Initial modload state. -/
def modloadInit : ModloadState := ⟨BpfMap.empty Nat ModVal 256⟩

/-- Pack a list of bytes into a single natural number, first byte least
significant — `__builtin_memcpy(&key, name, 8)` on a little-endian machine. -/
def packBytes (l : List Nat) : Nat :=
  l.foldr (fun b acc => b % 256 + 256 * acc) 0

/-- The key of modload.c: the first 8 bytes of the module name packed into a
`__u64`. -/
def modKey (name : List Nat) : Nat := packBytes (name.take 8)

/-- `handle_do_init_module` of modload.c: count loads keyed by the first
8 bytes of the module name; the full 56-byte name is stored only on first
insert, the timestamp is overwritten on every event. -/
def handle_do_init_module (name : List Nat) (ts : Nat) (s : ModloadState) : ModloadState :=
  let key := modKey name
  match s.mod_accum.lookup key with
  | some v =>
      { s with mod_accum :=
          s.mod_accum.writeThrough key ⟨u64 (v.count + 1), ts, v.name⟩ }
  | none =>
      { s with mod_accum :=
          s.mod_accum.updateNoexist key ⟨1, ts, name.take 56⟩ }

/-! ## ptracedetect.c — ptrace-based injection detection (sentinel) -/

/-- `struct ptrace_key` of ptracedetect.c: `__u32 tracer_pid; __u32 target_pid`,
modelled both as the record of its two fixed-width fields and, via
`packPtraceKey`, as the packed 64-bit image of that record in the key space. -/
structure PtraceKeyS where
  tracer_pid : Nat
  target_pid : Nat
deriving DecidableEq

/-- The packed byte image of `struct ptrace_key`: tracer pid in the low 32
bits, target pid in the high 32 bits (little-endian field concatenation). -/
def packPtraceKey (k : PtraceKeyS) : Nat :=
  k.tracer_pid % 2 ^ 32 + 2 ^ 32 * (k.target_pid % 2 ^ 32)

/-- `struct ptrace_val` of ptracedetect.c. -/
structure PtraceVal where
  count : Nat
  ts : Nat
  request : Nat
  tracer_comm : List Nat
deriving DecidableEq

/-- State of ptracedetect.c: `ptrace_accum` (ptrace_key → ptrace_val),
`max_entries` 256. -/
structure PtracedetectState where
  ptrace_accum : BpfMap PtraceKeyS PtraceVal
deriving DecidableEq

/-- Initial ptracedetect state. -/
def ptracedetectInit : PtracedetectState := ⟨BpfMap.empty PtraceKeyS PtraceVal 256⟩

/-- `handle_sys_enter_ptrace` of ptracedetect.c: for the five suspicious
requests and a nonzero tracer pid, count per (tracer, target) pair. -/
def handle_sys_enter_ptrace (req tracer_pid target_pid ts : Nat) (comm : List Nat)
    (s : PtracedetectState) : PtracedetectState :=
  if req ≠ 16 ∧ req ≠ 0x4206 ∧ req ≠ 4 ∧ req ≠ 5 ∧ req ≠ 13 then s
  else if tracer_pid = 0 then s
  else
    let key : PtraceKeyS := ⟨tracer_pid, target_pid⟩
    match s.ptrace_accum.lookup key with
    | some v =>
        { s with ptrace_accum :=
            s.ptrace_accum.writeThrough key ⟨u64 (v.count + 1), ts, req, comm⟩ }
    | none =>
        { s with ptrace_accum :=
            s.ptrace_accum.updateNoexist key ⟨1, ts, req, comm⟩ }

/-! ## Concrete states used to exercise the handlers -/

/-- A runqlat state whose accumulation map is at capacity (capacity 1, one
record for pid 1) while a wakeup for pid 2 is in flight. -/
def rqlatTinyFull : RunqlatState :=
  ⟨⟨[(2, 0)], 10240⟩, ⟨[(1, ⟨5, 1, 5⟩)], 1⟩⟩

/-- An execsnoop state whose record for pid 5 has a count one below the
64-bit wraparound point. -/
def execAlmostWrapped : ExecsnoopState :=
  ⟨⟨[(5, ⟨2 ^ 64 - 1, 0, 0, 0, [], []⟩)], 10240⟩⟩

/-- A 56-byte module name: eight 0x61 bytes, then 0x41, then zero padding. -/
def modNameA : List Nat :=
  List.replicate 8 97 ++ [65] ++ List.replicate 47 0

/-- A 56-byte module name agreeing with `modNameA` on its first eight bytes
but differing at byte index 8. -/
def modNameB : List Nat :=
  List.replicate 8 97 ++ [66] ++ List.replicate 47 0

/-! ## Lemmas about the map operations -/

theorem alookup_areplace_self {K V : Type} [DecidableEq K] (l : List (K × V)) (k : K)
    (v w : V) (h : alookup l k = some w) : alookup (areplace l k v) k = some v := by
  induction l with
  | nil => simp [alookup] at h
  | cons e rest ih =>
      obtain ⟨k', v'⟩ := e
      by_cases hk : k' = k
      · simp [alookup, areplace, hk]
      · simp [alookup, areplace, hk] at h ⊢
        exact ih h

theorem alookup_areplace_ne {K V : Type} [DecidableEq K] (l : List (K × V)) (k k' : K)
    (v : V) (hne : k' ≠ k) : alookup (areplace l k v) k' = alookup l k' := by
  induction l with
  | nil => simp [areplace]
  | cons e rest ih =>
      obtain ⟨k'', v''⟩ := e
      by_cases hk : k'' = k
      · subst hk
        simp [areplace, alookup, Ne.symm hne]
      · simp [areplace, alookup, hk]
        by_cases hk2 : k'' = k'
        · simp [hk2]
        · simp [hk2, ih]

theorem length_areplace {K V : Type} [DecidableEq K] (l : List (K × V)) (k : K) (v : V) :
    (areplace l k v).length = l.length := by
  induction l with
  | nil => simp [areplace]
  | cons e rest ih =>
      obtain ⟨k', v'⟩ := e
      by_cases hk : k' = k <;> simp [areplace, hk, ih]

theorem alookup_adelete_self {K V : Type} [DecidableEq K] (l : List (K × V)) (k : K) :
    alookup (adelete l k) k = none := by
  induction l with
  | nil => simp [adelete, alookup]
  | cons e rest ih =>
      obtain ⟨k', v'⟩ := e
      by_cases hk : k' = k
      · simp [adelete, hk, ih]
      · simp [adelete, alookup, hk, ih]

theorem alookup_adelete_ne {K V : Type} [DecidableEq K] (l : List (K × V)) (k k' : K)
    (hne : k' ≠ k) : alookup (adelete l k) k' = alookup l k' := by
  induction l with
  | nil => simp [adelete]
  | cons e rest ih =>
      obtain ⟨k'', v''⟩ := e
      by_cases hk : k'' = k
      · subst hk
        simp [adelete, alookup, Ne.symm hne, ih]
      · simp [adelete, alookup, hk, ih]

theorem lookup_updateAny_self {K V : Type} [DecidableEq K] (m : BpfMap K V) (k : K) (v : V)
    (h : (m.lookup k).isSome ∨ m.entries.length < m.cap) :
    (m.updateAny k v).lookup k = some v := by
  unfold BpfMap.updateAny BpfMap.lookup at *
  cases hl : alookup m.entries k with
  | some w => simpa using alookup_areplace_self m.entries k v w hl
  | none =>
      rcases h with h | h
      · simp [hl] at h
      · simp [hl, h, alookup]

theorem lookup_updateAny_ne {K V : Type} [DecidableEq K] (m : BpfMap K V) (k k' : K) (v : V)
    (hne : k' ≠ k) : (m.updateAny k v).lookup k' = m.lookup k' := by
  unfold BpfMap.updateAny BpfMap.lookup
  cases hl : alookup m.entries k with
  | some w => simpa using alookup_areplace_ne m.entries k k' v hne
  | none =>
      by_cases hlen : m.entries.length < m.cap
      · simp [hlen, alookup, Ne.symm hne]
      · simp [hlen]

theorem lookup_updateNoexist_absent {K V : Type} [DecidableEq K] (m : BpfMap K V) (k : K)
    (v : V) (h1 : m.lookup k = none) (h2 : m.entries.length < m.cap) :
    (m.updateNoexist k v).lookup k = some v := by
  unfold BpfMap.updateNoexist BpfMap.lookup at *
  simp [h1, h2, alookup]

theorem updateNoexist_full {K V : Type} [DecidableEq K] (m : BpfMap K V) (k : K) (v : V)
    (h1 : m.lookup k = none) (h2 : ¬ m.entries.length < m.cap) :
    m.updateNoexist k v = m := by
  unfold BpfMap.updateNoexist BpfMap.lookup at *
  simp [h1, h2]

theorem lookup_updateNoexist_ne {K V : Type} [DecidableEq K] (m : BpfMap K V) (k k' : K)
    (v : V) (hne : k' ≠ k) : (m.updateNoexist k v).lookup k' = m.lookup k' := by
  unfold BpfMap.updateNoexist BpfMap.lookup
  cases hl : alookup m.entries k with
  | some w => simp
  | none =>
      by_cases hlen : m.entries.length < m.cap
      · simp [hlen, alookup, Ne.symm hne]
      · simp [hlen]

theorem lookup_writeThrough_self {K V : Type} [DecidableEq K] (m : BpfMap K V) (k : K)
    (v w : V) (h : m.lookup k = some w) : (m.writeThrough k v).lookup k = some v := by
  unfold BpfMap.writeThrough BpfMap.lookup at *
  exact alookup_areplace_self m.entries k v w h

theorem lookup_writeThrough_ne {K V : Type} [DecidableEq K] (m : BpfMap K V) (k k' : K)
    (v : V) (hne : k' ≠ k) : (m.writeThrough k v).lookup k' = m.lookup k' := by
  unfold BpfMap.writeThrough BpfMap.lookup
  exact alookup_areplace_ne m.entries k k' v hne

theorem length_writeThrough {K V : Type} [DecidableEq K] (m : BpfMap K V) (k : K) (v : V) :
    (m.writeThrough k v).entries.length = m.entries.length := by
  unfold BpfMap.writeThrough
  exact length_areplace m.entries k v

theorem lookup_del_self {K V : Type} [DecidableEq K] (m : BpfMap K V) (k : K) :
    (m.del k).lookup k = none := by
  unfold BpfMap.del BpfMap.lookup
  exact alookup_adelete_self m.entries k

theorem lookup_del_ne {K V : Type} [DecidableEq K] (m : BpfMap K V) (k k' : K)
    (hne : k' ≠ k) : (m.del k).lookup k' = m.lookup k' := by
  unfold BpfMap.del BpfMap.lookup
  exact alookup_adelete_ne m.entries k k' hne

theorem u64sub_exact {a b : Nat} (hle : b ≤ a) (ha : a < 2 ^ 64) : u64sub a b = a - b := by
  unfold u64sub
  rw [Nat.mod_eq_of_lt ha, Nat.mod_eq_of_lt (lt_of_le_of_lt hle ha)]
  have h1 : 2 ^ 64 + a - b = 2 ^ 64 + (a - b) := by omega
  rw [h1, Nat.add_mod_left, Nat.mod_eq_of_lt (by omega)]

theorem u64sub_self (a : Nat) : u64sub a a = 0 := by
  unfold u64sub
  simp

theorem clamp32_of_ge {d : Nat} (h : d ≥ 0xFFFFFFFF) : clamp32 d = 0xFFFFFFFF := by
  unfold clamp32
  by_cases hd : d > 0xFFFFFFFF
  · simp [hd]
  · have : d = 0xFFFFFFFF := by omega
    simp [this]

theorem log2_slot_go_ge (fuel : Nat) : ∀ v slot, slot ≤ log2_slot_go fuel v slot := by
  induction fuel with
  | zero => intro v slot; simp [log2_slot_go]
  | succ fuel ih =>
      intro v slot
      by_cases hv : v > 1
      · simp only [log2_slot_go, hv, if_true]
        exact le_trans (Nat.le_succ slot) (ih (v / 2) (slot + 1))
      · simp only [log2_slot_go, hv, if_false]
        exact ih v slot

theorem log2_slot_go_le (fuel : Nat) : ∀ v slot, log2_slot_go fuel v slot ≤ slot + fuel := by
  induction fuel with
  | zero => intro v slot; simp [log2_slot_go]
  | succ fuel ih =>
      intro v slot
      by_cases hv : v > 1
      · simp only [log2_slot_go, hv, if_true]
        have := ih (v / 2) (slot + 1)
        omega
      · simp only [log2_slot_go, hv, if_false]
        have := ih v slot
        omega

theorem log2_slot_go_small (fuel : Nat) : ∀ v slot, v ≤ 1 → log2_slot_go fuel v slot = slot := by
  induction fuel with
  | zero => intro v slot _; simp [log2_slot_go]
  | succ fuel ih =>
      intro v slot h
      have hv : ¬ v > 1 := by omega
      simp only [log2_slot_go, hv, if_false]
      exact ih v slot h

theorem log2_slot_go_mono (fuel : Nat) :
    ∀ v w slot, v ≤ w → log2_slot_go fuel v slot ≤ log2_slot_go fuel w slot := by
  induction fuel with
  | zero => intro v w slot _; simp [log2_slot_go]
  | succ fuel ih =>
      intro v w slot hvw
      by_cases hv : v > 1
      · have hw : w > 1 := by omega
        simp only [log2_slot_go, hv, hw, if_true]
        exact ih (v / 2) (w / 2) (slot + 1) (Nat.div_le_div_right hvw)
      · simp only [log2_slot_go, hv, if_false]
        rw [log2_slot_go_small fuel v slot (by omega)]
        by_cases hw : w > 1
        · simp only [hw, if_true]
          exact le_trans (Nat.le_succ slot) (log2_slot_go_ge fuel (w / 2) (slot + 1))
        · simp only [hw, if_false]
          exact log2_slot_go_ge fuel w slot

theorem log2_slot_eq_go (us : Nat) : log2_slot us = log2_slot_go 15 us 0 := by
  unfold log2_slot
  have h := log2_slot_go_le 15 us 0
  have : ¬ log2_slot_go 15 us 0 ≥ 16 := by omega
  simp [this]

/-- Claim C4: the histogram bucketer maps a microsecond duration to one of 16
bucket indices by halving while the value stays above 1 for at most 15
iterations: bucket(0) = 0, bucket(1) = 0, bucket(2) = 1, bucket(4) = 2, the
mapping is non-decreasing, and the result never exceeds 15. -/
theorem C4_histogram_bucketer :
    log2_slot 0 = 0 ∧ log2_slot 1 = 0 ∧ log2_slot 2 = 1 ∧ log2_slot 4 = 2 ∧
    (∀ x y, x ≤ y → log2_slot x ≤ log2_slot y) ∧ (∀ x, log2_slot x ≤ 15) := by
  refine ⟨by decide, by decide, by decide, by decide, ?_, ?_⟩
  · intro x y hxy
    rw [log2_slot_eq_go, log2_slot_eq_go]
    exact log2_slot_go_mono 15 x y 0 hxy
  · intro x
    rw [log2_slot_eq_go]
    have := log2_slot_go_le 15 x 0
    omega

/-- Witness for C4 at concrete inputs: monotonicity applied at 3 ≤ 900 and
the bound applied at 10 ^ 9. -/
theorem C4_witness : log2_slot 3 ≤ log2_slot 900 ∧ log2_slot (10 ^ 9) ≤ 15 :=
  ⟨C4_histogram_bucketer.2.2.2.2.1 3 900 (by decide),
   C4_histogram_bucketer.2.2.2.2.2 (10 ^ 9)⟩

/-- Claim C5: an end event with no in-flight begin entry for its key is a
complete no-op — the handler returns leaving the whole state (every pairing
and accumulation map) unchanged; shown for the run-queue switch handler and
the syscall exit handler. -/
theorem C5_end_without_begin_noop (pid id now : Nat) (s : RunqlatState) (t : SyscallState)
    (h1 : s.rq_start.lookup pid = none) (h2 : t.sc_start.lookup pid = none) :
    handle_sched_switch_rqlat pid now s = s ∧ handle_sys_exit pid id now t = t := by
  constructor
  · unfold handle_sched_switch_rqlat
    by_cases hp : pid = 0 <;> simp [hp, h1]
  · unfold handle_sys_exit
    by_cases hp : pid = 0 <;> simp [hp, h2]

/-- Witness for C5: an end for pid 1 on the empty initial states changes
nothing. -/
theorem C5_witness :
    handle_sched_switch_rqlat 1 5 runqlatInit = runqlatInit ∧
    handle_sys_exit 1 0 5 syscallInit = syscallInit :=
  C5_end_without_begin_noop 1 0 5 runqlatInit syscallInit rfl rfl

/-- Claim C10: in the block-IO completion handler and the futex-exit handler,
a paired completion with computed duration exactly zero is discarded: the
pairing entry is consumed (deleted) but the accumulation map is untouched. -/
theorem C10_zero_duration_discarded (dev sector now pid iopid : Nat)
    (io : IolatencyState) (r : LockwaitState)
    (hio : io.inflight.lookup ⟨dev, sector⟩ = some ⟨iopid, now⟩)
    (hr : r.futex_start.lookup pid = some now)
    (hpid : pid ≠ 0) :
    (handle_block_rq_complete dev sector now io).iolat_hist = io.iolat_hist ∧
    (handle_block_rq_complete dev sector now io).inflight.lookup ⟨dev, sector⟩ = none ∧
    (handle_futex_exit pid now r).futex_accum = r.futex_accum ∧
    (handle_futex_exit pid now r).futex_start.lookup pid = none := by
  have hz : u64sub now now = 0 := u64sub_self now
  refine ⟨?_, ?_, ?_, ?_⟩
  · unfold handle_block_rq_complete
    simp [hio, hz]
  · unfold handle_block_rq_complete
    simp [hio, hz, lookup_del_self]
  · unfold handle_futex_exit
    simp [hpid, hr, hz]
  · unfold handle_futex_exit
    simp [hpid, hr, hz, lookup_del_self]

/-- Witness for C10: issue and futex-enter at t = 41, completion and exit at
t = 41 — zero duration; both accumulation maps stay empty and both pairing
entries are gone. -/
theorem C10_witness :
    (handle_block_rq_complete 3 9 41 (handle_block_rq_issue 3 9 7 41 iolatencyInit)).iolat_hist
      = (handle_block_rq_issue 3 9 7 41 iolatencyInit).iolat_hist ∧
    (handle_block_rq_complete 3 9 41 (handle_block_rq_issue 3 9 7 41 iolatencyInit)).inflight.lookup ⟨3, 9⟩
      = none ∧
    (handle_futex_exit 7 41 (handle_futex_enter 0 7 41 lockwaitInit)).futex_accum
      = (handle_futex_enter 0 7 41 lockwaitInit).futex_accum ∧
    (handle_futex_exit 7 41 (handle_futex_enter 0 7 41 lockwaitInit)).futex_start.lookup 7
      = none :=
  C10_zero_duration_discarded 3 9 41 7 7
    (handle_block_rq_issue 3 9 7 41 iolatencyInit)
    (handle_futex_enter 0 7 41 lockwaitInit) rfl rfl (by decide)

/-! ## Reduction lemmas for the paired handlers -/

theorem switch_rqlat_absent (pid t2 t1 : Nat) (s : RunqlatState)
    (hpid : pid ≠ 0) (hlk : s.rq_start.lookup pid = some t1)
    (hguard : ¬ u64sub t2 t1 > 10000000000)
    (hacc : s.rqlat_accum.lookup pid = none) :
    handle_sched_switch_rqlat pid t2 s =
      { rq_start := s.rq_start.del pid
        rqlat_accum := s.rqlat_accum.updateNoexist pid
          ⟨u64sub t2 t1, 1, clamp32 (u64sub t2 t1)⟩ } := by
  unfold handle_sched_switch_rqlat
  simp [hpid, hlk, hguard, hacc]

theorem switch_rqlat_present (pid t2 t1 : Nat) (v : RqlatVal) (s : RunqlatState)
    (hpid : pid ≠ 0) (hlk : s.rq_start.lookup pid = some t1)
    (hguard : ¬ u64sub t2 t1 > 10000000000)
    (hacc : s.rqlat_accum.lookup pid = some v) :
    handle_sched_switch_rqlat pid t2 s =
      { rq_start := s.rq_start.del pid
        rqlat_accum := s.rqlat_accum.writeThrough pid
          ⟨u64 (v.total_ns + u64sub t2 t1), u32 (v.count + 1),
           if clamp32 (u64sub t2 t1) > v.max_ns then clamp32 (u64sub t2 t1)
           else v.max_ns⟩ } := by
  unfold handle_sched_switch_rqlat
  simp [hpid, hlk, hguard, hacc]

theorem futex_exit_absent (pid t2 t1 : Nat) (r : LockwaitState)
    (hpid : pid ≠ 0) (hlk : r.futex_start.lookup pid = some t1)
    (hguard : ¬ (u64sub t2 t1 = 0 ∨ u64sub t2 t1 > 30000000000))
    (hacc : r.futex_accum.lookup pid = none) :
    handle_futex_exit pid t2 r =
      { futex_start := r.futex_start.del pid
        futex_accum := r.futex_accum.updateNoexist pid ⟨u64sub t2 t1, 1⟩ } := by
  unfold handle_futex_exit
  simp only [hpid, hlk, if_neg, ite_false]
  simp [hguard, hacc]

theorem futex_exit_present (pid t2 t1 : Nat) (v : LockVal) (r : LockwaitState)
    (hpid : pid ≠ 0) (hlk : r.futex_start.lookup pid = some t1)
    (hguard : ¬ (u64sub t2 t1 = 0 ∨ u64sub t2 t1 > 30000000000))
    (hacc : r.futex_accum.lookup pid = some v) :
    handle_futex_exit pid t2 r =
      { futex_start := r.futex_start.del pid
        futex_accum := r.futex_accum.writeThrough pid
          ⟨u64 (v.total_wait_ns + u64sub t2 t1), u32 (v.count + 1)⟩ } := by
  unfold handle_futex_exit
  simp [hpid, hlk, hguard, hacc]

/-- Claim C1 (counterexample): under the futex-wait probe, begin(7, 5) then
end(7, 5) has duration 0, which is below the 30 s ceiling, yet the
accumulation map gains no record for key 7 — the handler discards
zero-duration samples. -/
theorem C1_counterexample :
    (handle_futex_exit 7 5 (handle_futex_enter 0 7 5 lockwaitInit)).futex_accum.lookup 7
      = none ∧
    u64sub 5 5 ≤ 30000000000 := by
  constructor
  · rfl
  · decide

/-- Claim C1 (amended): for begin(k, t1) then end(k, t2) with duration
t2 - t1 below the probe's ceiling — and, for the futex probe, nonzero — the
accumulation record for k gains exactly one sample: when k was absent and the
map below capacity a record ⟨t2 - t1, 1, …⟩ is created, and when k was
present its total grows by exactly t2 - t1 and its count by exactly 1
(exactly, given the 64/32-bit fields do not overflow).  Shown for the
run-queue probe and the futex probe. -/
theorem C1_paired_sample_accumulates (pid t1 t2 op : Nat) (s : RunqlatState)
    (r : LockwaitState)
    (hpid : pid ≠ 0) (hle : t1 ≤ t2) (ht2 : t2 < 2 ^ 64)
    (hroomS : (s.rq_start.lookup pid).isSome ∨ s.rq_start.entries.length < s.rq_start.cap)
    (hceilS : t2 - t1 ≤ 10000000000)
    (hop : op % 128 = 0)
    (hroomR : (r.futex_start.lookup pid).isSome ∨ r.futex_start.entries.length < r.futex_start.cap)
    (hpos : 0 < t2 - t1)
    (hceilR : t2 - t1 ≤ 30000000000) :
    ((s.rqlat_accum.lookup pid = none → s.rqlat_accum.entries.length < s.rqlat_accum.cap →
        (handle_sched_switch_rqlat pid t2 (handle_sched_wakeup pid t1 s)).rqlat_accum.lookup pid
          = some ⟨t2 - t1, 1, clamp32 (t2 - t1)⟩) ∧
      (∀ v, s.rqlat_accum.lookup pid = some v →
        v.total_ns + (t2 - t1) < 2 ^ 64 → v.count + 1 < 2 ^ 32 →
        (handle_sched_switch_rqlat pid t2 (handle_sched_wakeup pid t1 s)).rqlat_accum.lookup pid
          = some ⟨v.total_ns + (t2 - t1), v.count + 1,
              if clamp32 (t2 - t1) > v.max_ns then clamp32 (t2 - t1) else v.max_ns⟩)) ∧
    ((r.futex_accum.lookup pid = none → r.futex_accum.entries.length < r.futex_accum.cap →
        (handle_futex_exit pid t2 (handle_futex_enter op pid t1 r)).futex_accum.lookup pid
          = some ⟨t2 - t1, 1⟩) ∧
      (∀ v, r.futex_accum.lookup pid = some v →
        v.total_wait_ns + (t2 - t1) < 2 ^ 64 → v.count + 1 < 2 ^ 32 →
        (handle_futex_exit pid t2 (handle_futex_enter op pid t1 r)).futex_accum.lookup pid
          = some ⟨v.total_wait_ns + (t2 - t1), v.count + 1⟩)) := by
  have hw : handle_sched_wakeup pid t1 s = { s with rq_start := s.rq_start.updateAny pid t1 } := by
    simp [handle_sched_wakeup, hpid]
  have hwF : handle_futex_enter op pid t1 r
      = { r with futex_start := r.futex_start.updateAny pid t1 } := by
    simp [handle_futex_enter, hop, hpid]
  have hd : u64sub t2 t1 = t2 - t1 := u64sub_exact hle ht2
  have hlkS : (s.rq_start.updateAny pid t1).lookup pid = some t1 :=
    lookup_updateAny_self s.rq_start pid t1 hroomS
  have hlkR : (r.futex_start.updateAny pid t1).lookup pid = some t1 :=
    lookup_updateAny_self r.futex_start pid t1 hroomR
  have hgS : ¬ u64sub t2 t1 > 10000000000 := by rw [hd]; omega
  have hgR : ¬ (u64sub t2 t1 = 0 ∨ u64sub t2 t1 > 30000000000) := by rw [hd]; omega
  refine ⟨⟨?_, ?_⟩, ⟨?_, ?_⟩⟩
  · intro habs hroom
    rw [hw, switch_rqlat_absent pid t2 t1
      ({ s with rq_start := s.rq_start.updateAny pid t1 }) hpid hlkS hgS habs, hd]
    exact lookup_updateNoexist_absent s.rqlat_accum pid
      (⟨t2 - t1, 1, clamp32 (t2 - t1)⟩ : RqlatVal) habs hroom
  · intro v hsome hov hoc
    have h1 : u64 (v.total_ns + (t2 - t1)) = v.total_ns + (t2 - t1) :=
      Nat.mod_eq_of_lt hov
    have h2 : u32 (v.count + 1) = v.count + 1 := Nat.mod_eq_of_lt hoc
    rw [hw, switch_rqlat_present pid t2 t1 v
      ({ s with rq_start := s.rq_start.updateAny pid t1 }) hpid hlkS hgS hsome, hd, h1, h2]
    exact lookup_writeThrough_self s.rqlat_accum pid
      (⟨v.total_ns + (t2 - t1), v.count + 1,
        if clamp32 (t2 - t1) > v.max_ns then clamp32 (t2 - t1) else v.max_ns⟩ : RqlatVal)
      v hsome
  · intro habs hroom
    rw [hwF, futex_exit_absent pid t2 t1
      ({ r with futex_start := r.futex_start.updateAny pid t1 }) hpid hlkR hgR habs, hd]
    exact lookup_updateNoexist_absent r.futex_accum pid
      (⟨t2 - t1, 1⟩ : LockVal) habs hroom
  · intro v hsome hov hoc
    have h1 : u64 (v.total_wait_ns + (t2 - t1)) = v.total_wait_ns + (t2 - t1) :=
      Nat.mod_eq_of_lt hov
    have h2 : u32 (v.count + 1) = v.count + 1 := Nat.mod_eq_of_lt hoc
    rw [hwF, futex_exit_present pid t2 t1 v
      ({ r with futex_start := r.futex_start.updateAny pid t1 }) hpid hlkR hgR hsome, hd, h1, h2]
    exact lookup_writeThrough_self r.futex_accum pid
      (⟨v.total_wait_ns + (t2 - t1), v.count + 1⟩ : LockVal) v hsome

/-- Witness for C1 at pid 7, t1 = 10, t2 = 30 from the empty initial states:
both probes create the record ⟨20, 1, …⟩. -/
theorem C1_witness :
    (handle_sched_switch_rqlat 7 30 (handle_sched_wakeup 7 10 runqlatInit)).rqlat_accum.lookup 7
      = some ⟨30 - 10, 1, clamp32 (30 - 10)⟩ ∧
    (handle_futex_exit 7 30 (handle_futex_enter 0 7 10 lockwaitInit)).futex_accum.lookup 7
      = some ⟨30 - 10, 1⟩ :=
  ⟨(C1_paired_sample_accumulates 7 10 30 0 runqlatInit lockwaitInit (by decide) (by decide)
      (by norm_num) (Or.inr (by decide)) (by decide) (by decide) (Or.inr (by decide))
      (by decide) (by decide)).1.1 rfl (by decide),
   (C1_paired_sample_accumulates 7 10 30 0 runqlatInit lockwaitInit (by decide) (by decide)
      (by norm_num) (Or.inr (by decide)) (by decide) (by decide) (Or.inr (by decide))
      (by decide) (by decide)).2.1 rfl (by decide)⟩

/-- Claim C2 (counterexample): the TCP connection-establishment handler is a
latency-pairing handler, yet it applies no staleness ceiling: a begin at t = 0
followed by the SYN_SENT → ESTABLISHED transition at t = 31 000 000 000 ns — a
duration above even the loosest 30 s ceiling in the code base — is merged, and
an accumulation record for pid 7 is created rather than the sample being
discarded. -/
theorem C2_counterexample :
    (handle_set_state 1 2 1 31000000000 0
        (handle_tcp_v4_connect 1 0 7 tcpconnlatInit)).connlat_accum.lookup 7
      = some ⟨31000000000, 1, 0xFFFFFFFF, 7, 0⟩ ∧
    31000000000 > 30000000000 := by
  constructor
  · rfl
  · decide

/-- Claim C2 (amended): the latency-pairing handlers that define a staleness
ceiling (run queue 10 s, page fault 5 s, futex and syscall 30 s) discard an
above-ceiling paired duration entirely — the pairing entry is consumed but no
accumulation record is created or modified; in particular, under a 30 s
ceiling, begin(k, 0) then end(k, 31 000 000 000 ns) leaves the accumulation
map unchanged.  The TCP connection-establishment and block-IO handlers apply
no staleness ceiling.  Shown here for the page-fault and futex probes. -/
theorem C2_staleness_guard_discards (pid now ret t1 : Nat) (p : PgfaultState)
    (r : LockwaitState)
    (hpid : pid ≠ 0)
    (hp : p.pgfault_start.lookup pid = some t1)
    (hr : r.futex_start.lookup pid = some t1)
    (hdp : u64sub now t1 > 5000000000)
    (hdr : u64sub now t1 > 30000000000) :
    (handle_fault_exit pid now ret p).pgfault_accum = p.pgfault_accum ∧
    (handle_fault_exit pid now ret p).pgfault_start.lookup pid = none ∧
    (handle_futex_exit pid now r).futex_accum = r.futex_accum ∧
    (handle_futex_exit pid now r).futex_start.lookup pid = none := by
  refine ⟨?_, ?_, ?_, ?_⟩
  · unfold handle_fault_exit
    simp [hpid, hp, hdp]
  · unfold handle_fault_exit
    simp [hpid, hp, hdp, lookup_del_self]
  · unfold handle_futex_exit
    simp [hpid, hr, hdr]
  · unfold handle_futex_exit
    simp [hpid, hr, hdr, lookup_del_self]

/-- Witness for C2: begin(7, 0) then end at 31 000 000 000 ns on both probes —
the accumulation maps stay as they were (empty) and the pairing entries are
consumed. -/
theorem C2_witness :
    (handle_fault_exit 7 31000000000 0 (handle_fault_enter 7 0 pgfaultInit)).pgfault_accum
      = (handle_fault_enter 7 0 pgfaultInit).pgfault_accum ∧
    (handle_fault_exit 7 31000000000 0 (handle_fault_enter 7 0 pgfaultInit)).pgfault_start.lookup 7
      = none ∧
    (handle_futex_exit 7 31000000000 (handle_futex_enter 0 7 0 lockwaitInit)).futex_accum
      = (handle_futex_enter 0 7 0 lockwaitInit).futex_accum ∧
    (handle_futex_exit 7 31000000000 (handle_futex_enter 0 7 0 lockwaitInit)).futex_start.lookup 7
      = none :=
  C2_staleness_guard_discards 7 31000000000 0 0
    (handle_fault_enter 7 0 pgfaultInit) (handle_futex_enter 0 7 0 lockwaitInit)
    (by decide) rfl rfl (by decide) (by decide)

/-- Claim C3: with the accumulation map at capacity, a completed sample for a
key not yet in the map is dropped silently — the map is left exactly as it
was — while a sample for a key already present still merges into the existing
record in place, leaving every other record and the map's size unchanged.
Shown for the run-queue probe's accumulation map. -/
theorem C3_capacity_upsert (pid t1 now : Nat) (s : RunqlatState)
    (hpid : pid ≠ 0)
    (hstart : s.rq_start.lookup pid = some t1)
    (hdelta : ¬ u64sub now t1 > 10000000000)
    (hfull : ¬ s.rqlat_accum.entries.length < s.rqlat_accum.cap) :
    (s.rqlat_accum.lookup pid = none →
      (handle_sched_switch_rqlat pid now s).rqlat_accum = s.rqlat_accum) ∧
    (∀ v, s.rqlat_accum.lookup pid = some v →
      (handle_sched_switch_rqlat pid now s).rqlat_accum.lookup pid
          = some ⟨u64 (v.total_ns + u64sub now t1), u32 (v.count + 1),
              if clamp32 (u64sub now t1) > v.max_ns then clamp32 (u64sub now t1)
              else v.max_ns⟩ ∧
      (∀ k, k ≠ pid → (handle_sched_switch_rqlat pid now s).rqlat_accum.lookup k
          = s.rqlat_accum.lookup k) ∧
      (handle_sched_switch_rqlat pid now s).rqlat_accum.entries.length
          = s.rqlat_accum.entries.length) := by
  constructor
  · intro habs
    rw [switch_rqlat_absent pid now t1 s hpid hstart hdelta habs]
    exact updateNoexist_full s.rqlat_accum pid _ habs hfull
  · intro v hsome
    rw [switch_rqlat_present pid now t1 v s hpid hstart hdelta hsome]
    refine ⟨?_, ?_, ?_⟩
    · exact lookup_writeThrough_self s.rqlat_accum pid _ v hsome
    · intro k hk
      exact lookup_writeThrough_ne s.rqlat_accum pid k _ hk
    · exact length_writeThrough s.rqlat_accum pid _

/-- Witness for C3 on `rqlatTinyFull` (accumulation capacity 1, holding only
pid 1, wakeup for pid 2 in flight): the completion for the new pid 2 leaves
the accumulation map untouched. -/
theorem C3_witness :
    (handle_sched_switch_rqlat 2 100 rqlatTinyFull).rqlat_accum
      = rqlatTinyFull.rqlat_accum :=
  (C3_capacity_upsert 2 0 100 rqlatTinyFull (by decide) rfl (by decide) (by decide)).1 rfl

/-- Claim C6: a begin(k, t2) following a begin(k, t1) with no intervening end
overwrites the pairing entry for k (last-begin-wins, the first in-flight
measurement is silently abandoned), and a subsequent end(k, t3) pairs with t2,
yielding duration t3 - t2 — never t3 - t1.  Shown for the run-queue wakeup
pairing map (including the subsequent completion) and for the TCP connect
pairing map. -/
theorem C6_last_begin_wins (k t1 t2 t3 sk p1 p2 : Nat) (s : RunqlatState)
    (t : TcpconnlatState)
    (hk : k ≠ 0)
    (hroom : (s.rq_start.lookup k).isSome ∨ s.rq_start.entries.length < s.rq_start.cap)
    (hle : t2 ≤ t3) (ht3 : t3 < 2 ^ 64) (hceil : t3 - t2 ≤ 10000000000)
    (haccum : s.rqlat_accum.lookup k = none)
    (haroom : s.rqlat_accum.entries.length < s.rqlat_accum.cap)
    (hp1 : p1 ≠ 0) (hp2 : p2 ≠ 0)
    (htroom : (t.conn_inflight.lookup sk).isSome ∨
      t.conn_inflight.entries.length < t.conn_inflight.cap) :
    (handle_sched_wakeup k t2 (handle_sched_wakeup k t1 s)).rq_start.lookup k = some t2 ∧
    (handle_sched_switch_rqlat k t3
        (handle_sched_wakeup k t2 (handle_sched_wakeup k t1 s))).rqlat_accum.lookup k
      = some ⟨t3 - t2, 1, clamp32 (t3 - t2)⟩ ∧
    (handle_tcp_v4_connect sk t2 p2 (handle_tcp_v4_connect sk t1 p1 t)).conn_inflight.lookup sk
      = some ⟨t2, p2⟩ := by
  have hw1 : handle_sched_wakeup k t1 s
      = { s with rq_start := s.rq_start.updateAny k t1 } := by
    simp [handle_sched_wakeup, hk]
  have hlk1 : (s.rq_start.updateAny k t1).lookup k = some t1 :=
    lookup_updateAny_self s.rq_start k t1 hroom
  have hlk2 : ((s.rq_start.updateAny k t1).updateAny k t2).lookup k = some t2 :=
    lookup_updateAny_self _ k t2 (Or.inl (by simp [hlk1]))
  have hw2 : handle_sched_wakeup k t2 { s with rq_start := s.rq_start.updateAny k t1 }
      = { s with rq_start := (s.rq_start.updateAny k t1).updateAny k t2 } := by
    simp [handle_sched_wakeup, hk]
  have hd : u64sub t3 t2 = t3 - t2 := u64sub_exact hle ht3
  have hg : ¬ u64sub t3 t2 > 10000000000 := by rw [hd]; omega
  refine ⟨?_, ?_, ?_⟩
  · rw [hw1, hw2]
    exact hlk2
  · rw [hw1, hw2, switch_rqlat_absent k t3 t2
      ({ s with rq_start := (s.rq_start.updateAny k t1).updateAny k t2 }) hk hlk2 hg haccum,
      hd]
    exact lookup_updateNoexist_absent s.rqlat_accum k
      (⟨t3 - t2, 1, clamp32 (t3 - t2)⟩ : RqlatVal) haccum haroom
  · have hc1 : handle_tcp_v4_connect sk t1 p1 t
        = { t with conn_inflight := t.conn_inflight.updateAny sk ⟨t1, p1⟩ } := by
      simp [handle_tcp_v4_connect, hp1]
    have hlkc : (t.conn_inflight.updateAny sk ⟨t1, p1⟩).lookup sk = some ⟨t1, p1⟩ :=
      lookup_updateAny_self t.conn_inflight sk ⟨t1, p1⟩ htroom
    have hc2 : handle_tcp_v4_connect sk t2 p2
        { t with conn_inflight := t.conn_inflight.updateAny sk ⟨t1, p1⟩ }
        = { t with conn_inflight :=
            (t.conn_inflight.updateAny sk ⟨t1, p1⟩).updateAny sk ⟨t2, p2⟩ } := by
      simp [handle_tcp_v4_connect, hp2]
    rw [hc1, hc2]
    exact lookup_updateAny_self (t.conn_inflight.updateAny sk ⟨t1, p1⟩) sk ⟨t2, p2⟩
      (Or.inl (by simp [hlkc]))

/-- Witness for C6 from the empty initial states: begin(9, 4), begin(9, 50),
end(9, 60) yields the sample 10 = 60 - 50, and the TCP connect entry for
socket 33 holds the second begin. -/
theorem C6_witness :
    (handle_sched_wakeup 9 50 (handle_sched_wakeup 9 4 runqlatInit)).rq_start.lookup 9
      = some 50 ∧
    (handle_sched_switch_rqlat 9 60
        (handle_sched_wakeup 9 50 (handle_sched_wakeup 9 4 runqlatInit))).rqlat_accum.lookup 9
      = some ⟨60 - 50, 1, clamp32 (60 - 50)⟩ ∧
    (handle_tcp_v4_connect 33 50 8 (handle_tcp_v4_connect 33 4 7 tcpconnlatInit)).conn_inflight.lookup 33
      = some ⟨50, 8⟩ :=
  C6_last_begin_wins 9 4 50 60 33 7 8 runqlatInit tcpconnlatInit (by decide)
    (Or.inr (by decide)) (by decide) (by norm_num) (by decide) rfl (by decide)
    (by decide) (by decide) (Or.inr (by decide))

theorem sys_exit_absent (pid id t2 t1 : Nat) (t : SyscallState)
    (hpid : pid ≠ 0) (hlk : t.sc_start.lookup pid = some t1)
    (hguard : ¬ u64sub t2 t1 > 30000000000)
    (hacc : t.sc_accum.lookup ⟨pid, u32 id⟩ = none) :
    handle_sys_exit pid id t2 t =
      { sc_start := t.sc_start.del pid
        sc_accum := t.sc_accum.updateNoexist ⟨pid, u32 id⟩
          ⟨u64sub t2 t1, 1, clamp32 (u64sub t2 t1)⟩ } := by
  unfold handle_sys_exit
  simp [hpid, hlk, hguard, hacc]

theorem sys_exit_present (pid id t2 t1 : Nat) (v : ScVal) (t : SyscallState)
    (hpid : pid ≠ 0) (hlk : t.sc_start.lookup pid = some t1)
    (hguard : ¬ u64sub t2 t1 > 30000000000)
    (hacc : t.sc_accum.lookup ⟨pid, u32 id⟩ = some v) :
    handle_sys_exit pid id t2 t =
      { sc_start := t.sc_start.del pid
        sc_accum := t.sc_accum.writeThrough ⟨pid, u32 id⟩
          ⟨u64 (v.total_ns + u64sub t2 t1), u32 (v.count + 1),
           if clamp32 (u64sub t2 t1) > v.max_ns then clamp32 (u64sub t2 t1)
           else v.max_ns⟩ } := by
  unfold handle_sys_exit
  simp [hpid, hlk, hguard, hacc]

/-- Claim C7: a paired duration of at least 0xFFFFFFFF ns merged into a
32-bit `max_ns` field stores exactly 0xFFFFFFFF — it never wraps — on both
the record-creation path and the in-place merge path; shown for the run-queue
probe and the syscall probe (the merge path assumes the stored 32-bit field is
in range, as every value the code ever stores there is). -/
theorem C7_clamp_no_wrap (pid t1 now id : Nat) (s : RunqlatState) (t : SyscallState)
    (hpid : pid ≠ 0)
    (hs : s.rq_start.lookup pid = some t1)
    (ht : t.sc_start.lookup pid = some t1)
    (hge : u64sub now t1 ≥ 0xFFFFFFFF)
    (hcr : ¬ u64sub now t1 > 10000000000)
    (hct : ¬ u64sub now t1 > 30000000000) :
    ((s.rqlat_accum.lookup pid = none →
        s.rqlat_accum.entries.length < s.rqlat_accum.cap →
        ((handle_sched_switch_rqlat pid now s).rqlat_accum.lookup pid).map RqlatVal.max_ns
          = some 0xFFFFFFFF) ∧
      (∀ v, s.rqlat_accum.lookup pid = some v → v.max_ns < 2 ^ 32 →
        ((handle_sched_switch_rqlat pid now s).rqlat_accum.lookup pid).map RqlatVal.max_ns
          = some 0xFFFFFFFF)) ∧
    ((t.sc_accum.lookup ⟨pid, u32 id⟩ = none →
        t.sc_accum.entries.length < t.sc_accum.cap →
        ((handle_sys_exit pid id now t).sc_accum.lookup ⟨pid, u32 id⟩).map ScVal.max_ns
          = some 0xFFFFFFFF) ∧
      (∀ v, t.sc_accum.lookup ⟨pid, u32 id⟩ = some v → v.max_ns < 2 ^ 32 →
        ((handle_sys_exit pid id now t).sc_accum.lookup ⟨pid, u32 id⟩).map ScVal.max_ns
          = some 0xFFFFFFFF)) := by
  have hcl : clamp32 (u64sub now t1) = 0xFFFFFFFF := clamp32_of_ge hge
  refine ⟨⟨?_, ?_⟩, ⟨?_, ?_⟩⟩
  · intro habs hroom
    rw [switch_rqlat_absent pid now t1 s hpid hs hcr habs]
    have hl := lookup_updateNoexist_absent s.rqlat_accum pid
      (⟨u64sub now t1, 1, clamp32 (u64sub now t1)⟩ : RqlatVal) habs hroom
    rw [hcl] at hl
    simp [hl, hcl]
  · intro v hsome hm
    rw [switch_rqlat_present pid now t1 v s hpid hs hcr hsome]
    have hl := lookup_writeThrough_self s.rqlat_accum pid
      (⟨u64 (v.total_ns + u64sub now t1), u32 (v.count + 1),
        if clamp32 (u64sub now t1) > v.max_ns then clamp32 (u64sub now t1)
        else v.max_ns⟩ : RqlatVal) v hsome
    simp only [hl, Option.map_some]
    rw [hcl]
    by_cases hc : 0xFFFFFFFF > v.max_ns
    · simp [hc]
    · have : v.max_ns = 0xFFFFFFFF := by omega
      simp [hc, this]
  · intro habs hroom
    rw [sys_exit_absent pid id now t1 t hpid ht hct habs]
    have hl := lookup_updateNoexist_absent t.sc_accum (⟨pid, u32 id⟩ : ScKey)
      (⟨u64sub now t1, 1, clamp32 (u64sub now t1)⟩ : ScVal) habs hroom
    rw [hcl] at hl
    simp [hl, hcl]
  · intro v hsome hm
    rw [sys_exit_present pid id now t1 v t hpid ht hct hsome]
    have hl := lookup_writeThrough_self t.sc_accum (⟨pid, u32 id⟩ : ScKey)
      (⟨u64 (v.total_ns + u64sub now t1), u32 (v.count + 1),
        if clamp32 (u64sub now t1) > v.max_ns then clamp32 (u64sub now t1)
        else v.max_ns⟩ : ScVal) v hsome
    simp only [hl, Option.map_some]
    rw [hcl]
    by_cases hc : 0xFFFFFFFF > v.max_ns
    · simp [hc]
    · have : v.max_ns = 0xFFFFFFFF := by omega
      simp [hc, this]

/-- Witness for C7: begin at 0, end at 0xFFFFFFFF ns (≈ 4.29 s, inside both
ceilings) on both probes from the empty initial states — the created records
hold max_ns = 0xFFFFFFFF. -/
theorem C7_witness :
    ((handle_sched_switch_rqlat 7 0xFFFFFFFF
        (handle_sched_wakeup 7 0 runqlatInit)).rqlat_accum.lookup 7).map RqlatVal.max_ns
      = some 0xFFFFFFFF ∧
    ((handle_sys_exit 7 1 0xFFFFFFFF
        (handle_sys_enter 7 0 syscallInit)).sc_accum.lookup ⟨7, u32 1⟩).map ScVal.max_ns
      = some 0xFFFFFFFF :=
  ⟨(C7_clamp_no_wrap 7 0 0xFFFFFFFF 1 (handle_sched_wakeup 7 0 runqlatInit)
      (handle_sys_enter 7 0 syscallInit) (by decide) rfl rfl (by decide) (by decide)
      (by decide)).1.1 rfl (by decide),
   (C7_clamp_no_wrap 7 0 0xFFFFFFFF 1 (handle_sched_wakeup 7 0 runqlatInit)
      (handle_sys_enter 7 0 syscallInit) (by decide) rfl rfl (by decide) (by decide)
      (by decide)).2.1 rfl (by decide)⟩

/-- Claim C8 (counterexample): the module-load handler keys on only the first
8 bytes of the module name, so the two distinct 56-byte names `modNameA` and
`modNameB` — equal in their first 8 bytes, different at byte 8 — produce the
same key: two logically distinct events collide, and loading both from the
empty state yields a single record with count 2 instead of two records. -/
theorem C8_counterexample :
    modKey modNameA = modKey modNameB ∧ modNameA ≠ modNameB ∧
    (handle_do_init_module modNameB 1
        (handle_do_init_module modNameA 0 modloadInit)).mod_accum.entries.length = 1 ∧
    ((handle_do_init_module modNameB 1
        (handle_do_init_module modNameA 0 modloadInit)).mod_accum.lookup
          (modKey modNameA)).map ModVal.count = some 2 := by
  refine ⟨by decide, by decide, by decide, by decide⟩

/-- Claim C8 (amended): key construction is deterministic for every handler,
and the composite keys built by packing fixed-width fields are injective —
the ptrace (tracer, target) key packed into 64 bits never collides for
distinct pairs — but the module-load key is determined by only the first
8 bytes of the name, so distinct names sharing an 8-byte prefix collide. -/
theorem C8_key_construction (a b : PtraceKeyS) (n1 n2 : List Nat)
    (ha1 : a.tracer_pid < 2 ^ 32) (ha2 : a.target_pid < 2 ^ 32)
    (hb1 : b.tracer_pid < 2 ^ 32) (hb2 : b.target_pid < 2 ^ 32) :
    (packPtraceKey a = packPtraceKey b → a = b) ∧
    (n1.take 8 = n2.take 8 → modKey n1 = modKey n2) := by
  constructor
  · intro h
    unfold packPtraceKey at h
    rw [Nat.mod_eq_of_lt ha1, Nat.mod_eq_of_lt ha2,
        Nat.mod_eq_of_lt hb1, Nat.mod_eq_of_lt hb2] at h
    obtain ⟨x1, x2⟩ := a
    obtain ⟨y1, y2⟩ := b
    simp only [PtraceKeyS.mk.injEq]
    simp only at h ha1 ha2 hb1 hb2
    omega
  · intro h
    unfold modKey
    rw [h]

/-- Witness for C8: packed keys of the concrete pairs (3, 4) and the concrete
names distinguish nothing more than the theorem claims. -/
theorem C8_witness :
    ((⟨3, 4⟩ : PtraceKeyS) = ⟨3, 4⟩) ∧ modKey [1, 2] = modKey [1, 2] :=
  ⟨(C8_key_construction ⟨3, 4⟩ ⟨3, 4⟩ [1, 2] [1, 2] (by decide) (by decide)
      (by decide) (by decide)).1 rfl,
   (C8_key_construction ⟨3, 4⟩ ⟨3, 4⟩ [1, 2] [1, 2] (by decide) (by decide)
      (by decide) (by decide)).2 rfl⟩

/-- Claim C9 (counterexample): count fields are updated modulo their fixed
width, so they are not unconditionally non-decreasing: on `execAlmostWrapped`,
whose record for pid 5 has count 2^64 - 1, one more exec event wraps the
count to 0 — a decrease. -/
theorem C9_counterexample :
    (execAlmostWrapped.exec_accum.lookup 5).map ExecVal.count = some (2 ^ 64 - 1) ∧
    ((handle_sched_process_exec 5 0 0 1 [] [] execAlmostWrapped).exec_accum.lookup 5).map
        ExecVal.count = some 0 := by
  refine ⟨by decide, by decide⟩

/-- Claim C9 (amended): a handler invocation never decreases, resets or
overwrites a record's count with a smaller value except through the modular
wraparound of its fixed-width increment: whenever the stored count has not
reached the 64-bit maximum, the new count is exactly the old count plus one
(descriptive last-seen fields change arbitrarily).  Shown for the exec probe
and the socket-state probe. -/
theorem C9_count_monotone (pid uid ppid ts old new : Nat) (comm fn : List Nat)
    (e : ExecsnoopState) (ss : SockstateState) (hpid : pid ≠ 0) :
    (∀ v, e.exec_accum.lookup pid = some v → v.count + 1 < 2 ^ 64 →
      ((handle_sched_process_exec pid uid ppid ts comm fn e).exec_accum.lookup pid).map
          ExecVal.count = some (v.count + 1)) ∧
    (∀ v, ss.state_accum.lookup ⟨old % 2 ^ 16, new % 2 ^ 16⟩ = some v →
      v.count + 1 < 2 ^ 64 →
      ((handle_sock_set_state old new ss).state_accum.lookup
          ⟨old % 2 ^ 16, new % 2 ^ 16⟩).map StateVal.count = some (v.count + 1)) := by
  constructor
  · intro v hsome hov
    have hu : u64 (v.count + 1) = v.count + 1 := Nat.mod_eq_of_lt hov
    have hred : handle_sched_process_exec pid uid ppid ts comm fn e
        = { e with exec_accum :=
            e.exec_accum.writeThrough pid ⟨u64 (v.count + 1), ts, ppid, uid, comm, fn⟩ } := by
      unfold handle_sched_process_exec
      simp [hpid, hsome]
    rw [hred, hu]
    have hl := lookup_writeThrough_self e.exec_accum pid
      (⟨v.count + 1, ts, ppid, uid, comm, fn⟩ : ExecVal) v hsome
    simp [hl]
  · intro v hsome hov
    have hu : u64 (v.count + 1) = v.count + 1 := Nat.mod_eq_of_lt hov
    have hsome65 : ss.state_accum.lookup ⟨old % 65536, new % 65536⟩ = some v := hsome
    have hred : handle_sock_set_state old new ss
        = { ss with state_accum :=
            ss.state_accum.writeThrough ⟨old % 65536, new % 65536⟩ ⟨u64 (v.count + 1)⟩ } := by
      unfold handle_sock_set_state
      simp [hsome65]
    rw [hred, hu]
    have hl := lookup_writeThrough_self ss.state_accum (⟨old % 65536, new % 65536⟩ : StateKey)
      (⟨v.count + 1⟩ : StateVal) v hsome65
    simp [hl]

/-- Witness for C9: a second exec for pid 5 and a second 2 → 1 transition, on
states built by one prior handler invocation each, bump the counts from 1 to
exactly 2. -/
theorem C9_witness :
    ((handle_sched_process_exec 5 0 0 9 [] []
        (handle_sched_process_exec 5 0 0 1 [] [] execsnoopInit)).exec_accum.lookup 5).map
      ExecVal.count = some 2 ∧
    ((handle_sock_set_state 2 1
        (handle_sock_set_state 2 1 sockstateInit)).state_accum.lookup
          ⟨2 % 2 ^ 16, 1 % 2 ^ 16⟩).map StateVal.count = some 2 :=
  ⟨(C9_count_monotone 5 0 0 9 2 1 [] []
      (handle_sched_process_exec 5 0 0 1 [] [] execsnoopInit)
      (handle_sock_set_state 2 1 sockstateInit) (by decide)).1 ⟨1, 1, 0, 0, [], []⟩
      rfl (by decide),
   (C9_count_monotone 5 0 0 9 2 1 [] []
      (handle_sched_process_exec 5 0 0 1 [] [] execsnoopInit)
      (handle_sock_set_state 2 1 sockstateInit) (by decide)).2 ⟨1⟩ rfl (by decide)⟩
